import Mathlib

/-!
# Verification of the Pinterest bulk post bot (`src/main.py`)

A shallow embedding of the program in `src/main.py`.  Pure helpers
(`load_config`, `load_csv_metadata`, `discover_images`, value resolution)
become Lean functions; the browser, the filesystem, stdin and the clock are
abstracted as explicit inputs (a `World`), and the per-pin Selenium actions
as success/failure oracles.  Machine-level concerns (actual sleeping,
logging text) are dropped; control flow, data flow, counting and exit
behaviour are kept faithful to the source.
-/

namespace PinBot

/-! ## String utilities mirroring the Python primitives used by the script -/

/-- Code-point lexicographic `<=` on character lists, as Python compares
strings (`sorted` on `str`). -/
def leChars : List Char → List Char → Bool
  | [], _ => true
  | _ :: _, [] => false
  | a :: as, b :: bs => if a < b then true else if a = b then leChars as bs else false

/-- Python string `<=` (code-point lexicographic), used by `sorted`. -/
def strLe (a b : String) : Bool := leChars a.toList b.toList

/-- Does `pat` match at the head of `hay`? -/
def matchesAt : List Char → List Char → Bool
  | [], _ => true
  | _ :: _, [] => false
  | a :: as, b :: bs => a = b && matchesAt as bs

/-- Does `needle` occur anywhere in `hay`? -/
def subSearch (needle : List Char) : List Char → Bool
  | [] => matchesAt needle []
  | c :: cs => matchesAt needle (c :: cs) || subSearch needle cs

/-- Python `needle in hay` on strings (substring containment). -/
def strContainsSub (hay needle : String) : Bool := subSearch needle.toList hay.toList

/-- Python `os.path.basename` on a POSIX path: the part after the last slash. -/
def basename (s : String) : String :=
  ⟨(s.toList.reverse.takeWhile (fun c => c ≠ '/')).reverse⟩

/-- Index of the last dot in a character list, if any. -/
def lastDotIdx (cs : List Char) : Option Nat :=
  match cs.reverse.findIdx? (fun c => c = '.') with
  | none => none
  | some j => some (cs.length - 1 - j)

/-- Python `pathlib.PurePath.suffix` of a file *name*: the final extension
including the dot, empty unless the last dot is neither the first nor the
last character of the name. -/
def nameSuffix (name : String) : String :=
  let cs := name.toList
  match lastDotIdx cs with
  | none => ""
  | some i => if 0 < i ∧ i < cs.length - 1 then ⟨cs.drop i⟩ else ""

/-- Python truthy-`or` on strings: `a or b` is `b` when `a` is empty. -/
def orStr (a b : String) : String := if a = "" then b else a

/-- The ASCII whitespace characters Python `str.strip()` removes (the
inputs here are ASCII; Unicode whitespace is out of scope). -/
def isSpaceChar (c : Char) : Bool :=
  c = ' ' || c = '\t' || c = '\n' || c = '\r' || c = '\x0b' || c = '\x0c'

/-- Python `s.strip()`: drop whitespace from both ends. -/
def strStrip (s : String) : String :=
  ⟨((s.toList.dropWhile isSpaceChar).reverse.dropWhile isSpaceChar).reverse⟩

/-- Python `s.lower()` on the ASCII strings this program compares
(file extensions, the y/n answer). -/
def strLower (s : String) : String := ⟨s.toList.map Char.toLower⟩

/-! ## Association lists standing in for Python dicts -/

/-- Python `d[k] = v`: replace in place, else append at the end
(insertion order is preserved, as for Python dicts). -/
def alSet {α : Type} : List (String × α) → String → α → List (String × α)
  | [], k, v => [(k, v)]
  | (k0, v0) :: rest, k, v =>
    if k0 = k then (k, v) :: rest else (k0, v0) :: alSet rest k v

/-- Python `d.get(k)`: `none` when the key is absent. -/
def alGet {α : Type} : List (String × α) → String → Option α
  | [], _ => none
  | (k0, v0) :: rest, k => if k0 = k then some v0 else alGet rest k

/-! ## Constants (src/main.py:31-36) -/

def PINTEREST_LOGIN_URL : String := "https://www.pinterest.com/login/"

def SUPPORTED_EXTENSIONS : List String :=
  [".jpg", ".jpeg", ".png", ".gif", ".webp", ".bmp", ".tiff"]

def DEFAULT_IMAGES_FOLDER : String := "bulk_post_pinterest"

/-! ## Config loading (src/main.py:78-95) -/

/-- A JSON scalar value as stored in the config dict. -/
inductive JVal
  | s (v : String)
  | n (v : Int)
  | b (v : Bool)
deriving DecidableEq, Repr

/-- The top-level shape of a parsed config file.  The script calls
`defaults.update(user_config)`; only the cases the claims need are
modelled: a JSON object (the documented shape) and a JSON number
(a representative non-object value, for which Python `dict.update`
raises `TypeError`). -/
inductive Json
  | obj (fields : List (String × JVal))
  | num (v : Int)
deriving DecidableEq, Repr

/-- Python `defaults.update(user_config)` when `user_config` is a dict. -/
def dictUpdate (d u : List (String × JVal)) : List (String × JVal) :=
  u.foldl (fun acc kv => alSet acc kv.1 kv.2) d

/-- The built-in defaults of `load_config` (src/main.py:80-86). -/
def configDefaults : List (String × JVal) :=
  [("board_name", JVal.s ""),
   ("login_wait_seconds", JVal.n 60),
   ("delay_between_pins", JVal.n 2),
   ("images_folder", JVal.s DEFAULT_IMAGES_FOLDER),
   ("headless", JVal.b false)]

/-- Result of `load_config`: the settings dict plus whether the
could-not-read warning was logged. -/
structure ConfigLoad where
  settings : List (String × JVal)
  warned : Bool
deriving DecidableEq, Repr

/-- `load_config` (src/main.py:78-95).  The input describes the file at the
config path: `none` when `os.path.isfile` is false; `some (.error ())`
when opening or `json.load` raises `ValueError`/`IOError` (caught by the
source, src/main.py:93); `some (.ok j)` when a JSON value `j` was parsed.
For a parsed JSON object, `defaults.update(...)` merges it over the
defaults.  For a parsed non-object such as a number, Python
`dict.update(int)` raises `TypeError`, which `except (ValueError, IOError)`
does not catch, so `load_config` itself raises: modelled as `.error`. -/
def load_config (file : Option (Except Unit Json)) : Except String ConfigLoad :=
  match file with
  | none => Except.ok ⟨configDefaults, false⟩
  | some (Except.error _) => Except.ok ⟨configDefaults, true⟩
  | some (Except.ok (Json.obj fields)) => Except.ok ⟨dictUpdate configDefaults fields, false⟩
  | some (Except.ok (Json.num _)) => Except.error "TypeError"

/-- Python `config.get(key, default)`: the stored value as-is, whatever
its JSON type — the script performs no type check on configured values. -/
def cfgVal (c : List (String × JVal)) (k : String) (d : JVal) : JVal :=
  (alGet c k).getD d

/-- Python truthiness of a decoded JSON scalar (`""`, `0`, `False` are
falsy), as `or` and `if not ...` see it. -/
def jTruthy : JVal → Bool
  | JVal.s v => v ≠ ""
  | JVal.n v => v ≠ 0
  | JVal.b v => v

/-- Is the value a JSON string? -/
def isStrVal : JVal → Bool
  | JVal.s _ => true
  | _ => false

/-- The text of a scalar, for bookkeeping the value `main` carries along.
On the modelled paths only the board name can be a non-string here, and it
flows solely into `select_board` (src/main.py:271-306), whose catch-all
`try/except` absorbs any error the foreign type causes, so its textual
image suffices for every property stated in this file. -/
def jStr : JVal → String
  | JVal.s v => v
  | JVal.n v => toString v
  | JVal.b v => toString v

/-! ## CSV metadata loading (src/main.py:98-123) -/

/-- One row produced by `csv.DictReader`: a field is `none` when its column
is absent from the header (so `row.get(col, "")` yields `""`). -/
structure CsvRow where
  filename : Option String
  title : Option String
  description : Option String
  link : Option String
  board : Option String
deriving DecidableEq, Repr

/-- The per-image metadata record stored for one CSV row
(src/main.py:114-119), fields already stripped. -/
structure Meta where
  title : String
  description : String
  link : String
  board : String
deriving DecidableEq, Repr

/-- The metadata file as the reading loop sees it: `missing` when
`os.path.isfile` is false; `rows rs readErr` when iteration yielded the
rows `rs` and then either reached end of file (`readErr = false`) or raised
one of the caught `csv.Error`/`ValueError`/`IOError` exceptions
(`readErr = true`).  The source builds `metadata` incrementally inside the
`try`, so rows read before a mid-file error are kept. -/
inductive CsvFile
  | missing
  | rows (rs : List CsvRow) (readErr : Bool)
deriving DecidableEq, Repr

/-- `os.path.basename(row.get("filename", "").strip())` (src/main.py:112). -/
def rowKey (r : CsvRow) : String := basename (strStrip (r.filename.getD ""))

/-- The metadata dict entry built from a row (src/main.py:114-119). -/
def rowMeta (r : CsvRow) : Meta :=
  ⟨strStrip (r.title.getD ""), strStrip (r.description.getD ""),
   strStrip (r.link.getD ""), strStrip (r.board.getD "")⟩

/-- One iteration of the row loop (src/main.py:111-119). -/
def csvStep (md : List (String × Meta)) (r : CsvRow) : List (String × Meta) :=
  if rowKey r ≠ "" then alSet md (rowKey r) (rowMeta r) else md

/-- `load_csv_metadata` (src/main.py:98-123).  `csvPath` is the `--csv`
argument (`None` → `none`); `not csv_path or not os.path.isfile(csv_path)`
returns the empty dict for `none`, for the empty string and for a missing
file.  Otherwise rows are folded in; a caught mid-read error only stops the
loop, the dict built so far is still returned. -/
def load_csv_metadata (csvPath : Option String) (file : CsvFile) : List (String × Meta) :=
  match csvPath with
  | none => []
  | some p =>
    if p = "" then []
    else
      match file with
      | CsvFile.missing => []
      | CsvFile.rows rs _ => rs.foldl csvStep []

/-! ## Image discovery (src/main.py:126-143) -/

/-- One entry of `folder.iterdir()`: its full path string and whether
`p.is_file()` holds. -/
structure DirEntry where
  path : String
  isFile : Bool
deriving DecidableEq, Repr

/-- The filter of src/main.py:134-135:
`p.is_file() and p.suffix.lower() in SUPPORTED_EXTENSIONS`
(`p.suffix` is the extension of the final path component). -/
def isImageFile (e : DirEntry) : Bool :=
  e.isFile && SUPPORTED_EXTENSIONS.contains (strLower (nameSuffix (basename e.path)))

/-- `discover_images` (src/main.py:126-143).  `none` models a path for
which `folder.is_dir()` is false.  `sys.exit(1)` becomes `.error 1`;
otherwise the filtered paths are returned sorted by Python string order. -/
def discover_images (folder : Option (List DirEntry)) : Except Nat (List String) :=
  match folder with
  | none => Except.error 1
  | some entries =>
    let images := List.insertionSort (fun a b => strLe a b = true)
      ((entries.filter isImageFile).map DirEntry.path)
    if images.isEmpty then Except.error 1 else Except.ok images

/-! ## Login gate (src/main.py:181-204) -/

/-- The polling loop of src/main.py:191-197.  `urls k` is
`driver.current_url` at the k-th one-per-second poll; the loop checks while
`time.time() < deadline`, i.e. at most `timeout` polls (the fuel).  Returns
the index of the first poll at which `"/login" not in current_url`. -/
def loginDetect (urls : Nat → String) : Nat → Nat → Option Nat
  | _, 0 => none
  | k, fuel + 1 =>
    if strContainsSub (urls k) "/login" = false then some k
    else loginDetect urls (k + 1) fuel

/-- `wait_for_login` (src/main.py:181-204): poll once per second up to
`timeout` polls; on detection return `True` without touching stdin.  On
timeout, consume one stdin line and return whether its
`.strip().lower()` equals `"y"` (src/main.py:200-204).  Returns the result
together with the remaining stdin. -/
def wait_for_login (urls : Nat → String) (timeout : Nat) (stdin : List String) :
    Bool × List String :=
  match loginDetect urls 0 timeout with
  | some _ => (true, stdin)
  | none => ((strLower (strStrip (stdin.headD "")) = "y" : Bool), stdin.tail)

/-! ## Per-pin posting sequence (src/main.py:221-330) -/

/-- Outcome of one field-filling `try` block of `fill_pin_details`:
either the field was filled with the given value, or the caught exception
was logged as a warning (src/main.py:234-268). -/
inductive FieldEv
  | filled (field : String) (value : String)
  | warned (field : String) (msg : String)
deriving DecidableEq, Repr

/-- The three Selenium interactions of `fill_pin_details`, as oracles:
`.ok ()` when the locate/scroll/click/send-keys sequence for that field
succeeds, `.error msg` when it raises. -/
structure FieldActs where
  titleAct : Except String Unit
  descAct : Except String Unit
  linkAct : Except String Unit
deriving Repr

/-- One `try/except` block of `fill_pin_details`: the exception is caught
and turned into a warning, never re-raised. -/
def tryFill (field value : String) (act : Except String Unit) : FieldEv :=
  match act with
  | Except.ok _ => FieldEv.filled field value
  | Except.error e => FieldEv.warned field e

/-- `fill_pin_details` (src/main.py:231-268): three independent
`try/except Exception` blocks, executed in order regardless of earlier
failures; the function never raises (its type is not in `Except`). -/
def fill_pin_details (acts : FieldActs) (title description link : String) : List FieldEv :=
  [tryFill "title" title acts.titleAct,
   tryFill "description" description acts.descAct,
   tryFill "link" link acts.linkAct]

/-- The polling loop of `wait_for_publish` (src/main.py:309-320).
`savingAt t` says whether the `Saving Pin...` indicator is present in
`driver.page_source` at elapsed time `t`; polls happen at t = 0, 2, 4, ...
while `t < timeout`.  Returns `true` on disappearance, `false` on timeout
(logged as a warning by the source, never raised). -/
def publishPoll (savingAt : Nat → Bool) (timeout : Nat) : Nat → Nat → Bool
  | _, 0 => false
  | t, fuel + 1 =>
    if t < timeout then
      if savingAt t = false then true else publishPoll savingAt timeout (t + 2) fuel
    else false

/-- `wait_for_publish` (src/main.py:309-320) with its default
`timeout=60`.  Fuel `timeout + 1` strictly exceeds the number of
2-second steps below `timeout`, so the fuel never runs out before the
deadline. -/
def wait_for_publish (savingAt : Nat → Bool) (timeout : Nat) : Bool :=
  publishPoll savingAt timeout 0 (timeout + 1)

/-- The site behaviour one pin's posting sequence observes. -/
structure PinSite where
  /-- `upload_image` (src/main.py:221-228): the `WebDriverWait` for the
  file input may raise a timeout exception; the rest of the upload is
  send-keys plus a fixed sleep. -/
  uploadAct : Except String Unit
  /-- The three field interactions of `fill_pin_details`. -/
  fields : FieldActs
  /-- `select_board` (src/main.py:271-306) is one catch-all `try/except`:
  it never raises; only whether it completed is observable. -/
  boardSelected : Bool
  /-- Presence of the saving indicator over time, for `wait_for_publish`. -/
  savingAt : Nat → Bool

/-- What one call of `post_single_pin` did, when it did not raise. -/
structure PinPost where
  fieldEvs : List FieldEv
  /-- Was `select_board` invoked (`if board_name:` on src/main.py:327)? -/
  boardAttempted : Bool
  /-- Result of `wait_for_publish` (ignored by the caller). -/
  published : Bool
deriving DecidableEq, Repr

/-- `post_single_pin` (src/main.py:323-330): `upload_image` may raise (and
the exception propagates to the per-pin handler in `main`); the remaining
steps — `fill_pin_details`, the optional `select_board`, the fixed sleep and
`wait_for_publish` — never raise, whatever their outcomes. -/
def post_single_pin (site : PinSite) (title description link board : String) :
    Except String PinPost :=
  match site.uploadAct with
  | Except.error e => Except.error e
  | Except.ok _ =>
    let evs := fill_pin_details site.fields title description link
    let boardTried := (board ≠ "" : Bool)
    let published := wait_for_publish site.savingAt 60
    Except.ok ⟨evs, boardTried, published⟩

/-! ## The main entry point (src/main.py:338-464) -/

/-- Abstraction of one iteration of the per-pin `try` block
(src/main.py:435-452): `good` when the whole sequence (navigation, delay,
wait for the file input, `post_single_pin`) completes; `bad` when some step
raises an `Exception` (caught on src/main.py:449, counted as failed);
`interrupt` when a `KeyboardInterrupt` — not an `Exception` subclass —
escapes to the outer handler (src/main.py:459). -/
inductive PinOutcome
  | good
  | bad
  | interrupt
deriving DecidableEq, Repr

/-- `good`, as a Bool. -/
def PinOutcome.isGood : PinOutcome → Bool
  | PinOutcome.good => true
  | _ => false

/-- One attempted pin and the values `main` posted it with
(src/main.py:420-447). -/
structure PinAttempt where
  index : Nat
  filename : String
  title : String
  description : String
  link : String
  board : String
  ok : Bool
deriving DecidableEq, Repr

/-- The per-field value resolution of the loop head (src/main.py:422-427):
`meta = csv_metadata.get(filename, {})` and then
`meta.get(field) or run_default` for each field — a missing row gives
`None`, an empty CSV value is falsy; either way the run-level default
wins. -/
def effMeta (md : List (String × Meta)) (filename : String)
    (dTitle dDesc dLink dBoard : String) : Meta :=
  match alGet md filename with
  | none => ⟨dTitle, dDesc, dLink, dBoard⟩
  | some m =>
    ⟨orStr m.title dTitle, orStr m.description dDesc,
     orStr m.link dLink, orStr m.board dBoard⟩

/-- What the posting loop produced. -/
structure LoopOut where
  pins : List PinAttempt
  succeeded : Nat
  failed : Nat
  /-- Did a `KeyboardInterrupt` cut the loop short? -/
  interrupted : Bool
deriving DecidableEq, Repr

/-- The posting loop of `main` (src/main.py:420-452): one iteration per
image, 1-based index `i` as produced by `enumerate(images, start=1)`.
A `bad` outcome increments `failed` and `continue`s; an `interrupt`
abandons the loop (and the summary) for the outer handler. -/
def postLoop (outcome : Nat → PinOutcome) (md : List (String × Meta))
    (dTitle dDesc dLink boardName : String) :
    List String → Nat → LoopOut
  | [], _ => ⟨[], 0, 0, false⟩
  | img :: rest, i =>
    let fn := basename img
    let m := effMeta md fn dTitle dDesc dLink boardName
    match outcome i with
    | PinOutcome.good =>
      let r := postLoop outcome md dTitle dDesc dLink boardName rest (i + 1)
      ⟨⟨i, fn, m.title, m.description, m.link, m.board, true⟩ :: r.pins,
       r.succeeded + 1, r.failed, r.interrupted⟩
    | PinOutcome.bad =>
      let r := postLoop outcome md dTitle dDesc dLink boardName rest (i + 1)
      ⟨⟨i, fn, m.title, m.description, m.link, m.board, false⟩ :: r.pins,
       r.succeeded, r.failed + 1, r.interrupted⟩
    | PinOutcome.interrupt => ⟨[], 0, 0, true⟩

/-- Why the process ended. -/
inductive RunReason
  | completed
  | interruptedUser
  | folderMissing
  | noImages
  | driverFailed
  | loginFailed
  /-- `load_config` raised an uncaught `TypeError`
  (`defaults.update` on a parsed non-object, src/main.py:91). -/
  | configCrash
  /-- `os.path.isabs(images_folder)` raised an uncaught `TypeError` on a
  non-string configured folder value (src/main.py:378), before discovery. -/
  | pathTypeCrash
  /-- `time.time() + timeout_seconds` raised an uncaught `TypeError` on a
  string `login_wait_seconds` (src/main.py:191), inside the `try` of
  `main`, so the `finally` still releases the browser. -/
  | loginTypeCrash
deriving DecidableEq, Repr

/-- Observable outcome of one run of `main`. -/
structure RunResult where
  exitCode : Nat
  reason : RunReason
  /-- Did an uncaught exception propagate out of `main`? -/
  crash : Bool
  /-- Were the default title/description/link prompts shown
  (src/main.py:392-398)? -/
  metaPromptShown : Bool
  /-- Was the board-name prompt shown (src/main.py:400-402)? -/
  boardPromptShown : Bool
  defaultTitle : String
  defaultDescription : String
  defaultLink : String
  boardName : String
  driverStarted : Bool
  driverQuit : Bool
  totalImages : Nat
  pins : List PinAttempt
  succeeded : Nat
  failed : Nat
  /-- The `COMPLETED: s posted | f failed | t total` line
  (src/main.py:454-457), when printed. -/
  summaryShown : Option (Nat × Nat × Nat)
deriving DecidableEq, Repr

/-- The CLI arguments (src/main.py:342-366). -/
structure Args where
  headless : Bool
  csvPath : Option String
  board : Option String
  images : Option String

/-- Everything outside the process that a run observes. -/
structure World where
  /-- The file at the `--config` path, as `load_config` sees it. -/
  configFile : Option (Except Unit Json)
  /-- The listing of the resolved images folder (`none`: not a directory). -/
  folder : Option (List DirEntry)
  /-- The file at the `--csv` path. -/
  csvFile : CsvFile
  /-- The stdin lines `input()` consumes, in order.  Assumed long enough
  (an exhausted stdin would raise `EOFError`, out of the claims). -/
  stdin : List String
  /-- `driver.current_url` at the k-th login poll. -/
  loginUrls : Nat → String
  /-- Did `create_driver` succeed (src/main.py:157-163)? -/
  driverOk : Bool
  /-- Outcome of the i-th (1-based) pin's posting sequence. -/
  pinOutcome : Nat → PinOutcome

/-- Does `load_config` raise on this config file (the uncaught `TypeError`
of `defaults.update` on a non-dict)? -/
def configCrashes (file : Option (Except Unit Json)) : Bool :=
  match file with
  | some (Except.ok (Json.num _)) => true
  | _ => false

/-- A `RunResult` for an exit before the posting loop. -/
def earlyExit (code : Nat) (reason : RunReason) (crash mp bp : Bool)
    (started quit : Bool) : RunResult :=
  ⟨code, reason, crash, mp, bp, "", "", "", "", started, quit, 0, [], 0, 0, none⟩

/-- `args.board or config.get("board_name", "")` (src/main.py:374): the
CLI string wins when non-empty; otherwise the config value with its
stored JSON type (Python `or` does not convert it). -/
def b0ValOf (a : Args) (config : List (String × JVal)) : JVal :=
  if a.board.getD "" ≠ "" then JVal.s (a.board.getD "")
  else cfgVal config "board_name" (JVal.s "")

/-- `args.images or config.get("images_folder", DEFAULT_IMAGES_FOLDER)`
(src/main.py:373), again with the stored JSON type: a non-string config
value reaches `os.path.isabs` unchanged and raises there. -/
def imagesVal (a : Args) (config : List (String × JVal)) : JVal :=
  if a.images.getD "" ≠ "" then JVal.s (a.images.getD "")
  else cfgVal config "images_folder" (JVal.s DEFAULT_IMAGES_FOLDER)

/-- The CSV metadata dict of the run (src/main.py:385). -/
def mdOf (a : Args) (w : World) : List (String × Meta) :=
  load_csv_metadata a.csvPath w.csvFile

/-- `if not csv_metadata:` (src/main.py:392): are the three default
prompts shown? -/
def mpOf (a : Args) (w : World) : Bool := (mdOf a w).isEmpty

/-- `default_title` after the optional prompt (src/main.py:388,395). -/
def dTitleOf (a : Args) (w : World) : String :=
  if mpOf a w then strStrip (w.stdin.getD 0 "") else ""

/-- `default_description` after the optional prompt (src/main.py:389,396). -/
def dDescOf (a : Args) (w : World) : String :=
  if mpOf a w then strStrip (w.stdin.getD 1 "") else ""

/-- `default_link` after the optional prompt (src/main.py:390,397). -/
def dLinkOf (a : Args) (w : World) : String :=
  if mpOf a w then strStrip (w.stdin.getD 2 "") else ""

/-- The stdin left after the optional default prompts. -/
def stdin1Of (a : Args) (w : World) : List String :=
  if mpOf a w then w.stdin.drop 3 else w.stdin

/-- `if not board_name:` (src/main.py:400): the board prompt is shown iff
the resolved board value `b0` (`args.board or config.get(...)`) is
Python-falsy. -/
def bpOf (b0 : JVal) : Bool := !jTruthy b0

/-- The board name after the optional prompt (src/main.py:400-401); a
truthy non-string config value is carried along unconverted (see `jStr`). -/
def boardNameOf (a : Args) (w : World) (b0 : JVal) : String :=
  if bpOf b0 then strStrip ((stdin1Of a w).headD "") else jStr b0

/-- The stdin left for `wait_for_login` after all prompts. -/
def stdin2Of (a : Args) (w : World) (b0 : JVal) : List String :=
  if bpOf b0 then (stdin1Of a w).tail else stdin1Of a w

/-- `config.get("login_wait_seconds", 60)` (src/main.py:410), kept with
its stored JSON type. -/
def loginWaitVal (config : List (String × JVal)) : JVal :=
  cfgVal config "login_wait_seconds" (JVal.n 60)

/-- `deadline = time.time() + timeout_seconds` (src/main.py:191): an
integer value gives that many one-second polls (a negative one puts the
deadline in the past: zero polls, which `Int.toNat` reproduces); a Python
bool is an int subclass (`True` adds 1); a string raises `TypeError`,
uncaught inside the `try` of `main`. -/
def loginWaitPolls : JVal → Except Unit Nat
  | JVal.n v => Except.ok v.toNat
  | JVal.b v => Except.ok (if v then 1 else 0)
  | JVal.s _ => Except.error ()

/-- The posting loop plus summary and teardown (src/main.py:414-464),
given the values resolved before the loop.  The summary is printed only
when the loop was not interrupted; `driver.quit()` runs either way. -/
def mainLoop (w : World) (md : List (String × Meta)) (mp bp : Bool)
    (dT dD dL bn : String) (images : List String) : RunResult :=
  ⟨0,
   if (postLoop w.pinOutcome md dT dD dL bn images 1).interrupted
     then RunReason.interruptedUser else RunReason.completed,
   false, mp, bp, dT, dD, dL, bn, true, true, images.length,
   (postLoop w.pinOutcome md dT dD dL bn images 1).pins,
   (postLoop w.pinOutcome md dT dD dL bn images 1).succeeded,
   (postLoop w.pinOutcome md dT dD dL bn images 1).failed,
   if (postLoop w.pinOutcome md dT dD dL bn images 1).interrupted then none
     else some ((postLoop w.pinOutcome md dT dD dL bn images 1).succeeded,
       (postLoop w.pinOutcome md dT dD dL bn images 1).failed, images.length)⟩

/-- `main` from the metadata loading on (src/main.py:385-464): prompts,
`create_driver` (may `sys.exit(1)`), then `wait_for_login` — whose
deadline computation raises an uncaught `TypeError` on a string
`login_wait_seconds` (the `finally` still quits the browser), and which on
`False` leads to `driver.quit()` then `sys.exit(1)` with zero pins — then
the posting loop. -/
def mainWithImages (a : Args) (w : World) (config : List (String × JVal))
    (b0 : JVal) (images : List String) : RunResult :=
  if w.driverOk = false then
    earlyExit 1 RunReason.driverFailed false (mpOf a w) (bpOf b0) false false
  else
    match loginWaitPolls (loginWaitVal config) with
    | Except.error _ =>
      ⟨1, RunReason.loginTypeCrash, true, mpOf a w, bpOf b0, dTitleOf a w, dDescOf a w,
       dLinkOf a w, boardNameOf a w b0, true, true, images.length, [], 0, 0, none⟩
    | Except.ok timeout =>
      if (wait_for_login w.loginUrls timeout (stdin2Of a w b0)).1 = false then
        ⟨1, RunReason.loginFailed, false, mpOf a w, bpOf b0, dTitleOf a w, dDescOf a w,
         dLinkOf a w, boardNameOf a w b0, true, true, images.length, [], 0, 0, none⟩
      else
        mainLoop w (mdOf a w) (mpOf a w) (bpOf b0) (dTitleOf a w) (dDescOf a w)
          (dLinkOf a w) (boardNameOf a w b0) images

/-- `main` (src/main.py:338-464).  Straight-line translation: load config
(whose uncaught `TypeError` is modelled as `configCrash`, exiting non-zero
with a traceback); CLI-over-config overrides with Python `or`;
`os.path.isabs(images_folder)` (src/main.py:378), which raises an uncaught
`TypeError` when the resolved folder value is not a string;
`discover_images` (may `sys.exit(1)`); then `mainWithImages`. -/
def mainRun (a : Args) (w : World) : RunResult :=
  match load_config w.configFile with
  | Except.error _ => earlyExit 1 RunReason.configCrash true false false false false
  | Except.ok cfg =>
    match imagesVal a cfg.settings with
    | JVal.s _ =>
      match discover_images w.folder with
      | Except.error code =>
        earlyExit code
          (if w.folder = none then RunReason.folderMissing else RunReason.noImages)
          false false false false false
      | Except.ok images =>
        mainWithImages a w cfg.settings (b0ValOf a cfg.settings) images
    | _ => earlyExit 1 RunReason.pathTypeCrash true false false false false

/-- The settings dict `main` works with, for runs on which `load_config`
returns (on its `TypeError` inputs the run never reaches a config read;
the value here is immaterial and defaulted). -/
def settingsOf (file : Option (Except Unit Json)) : List (String × JVal) :=
  match load_config file with
  | Except.ok c => c.settings
  | Except.error _ => configDefaults

/-! ## Concrete scenarios used by counterexamples and witnesses -/

/-- A non-login page, as `driver.current_url` after a successful login. -/
def homeUrl : String := "https://www.pinterest.com/"

/-- CLI arguments `--csv pins.csv --board B` (no `--images`, no
`--headless`). -/
def csvArgs : Args := ⟨false, some "pins.csv", some "B", none⟩

/-- A folder with exactly the three images a.jpg, b.jpg, c.jpg. -/
def threeImages : List DirEntry :=
  [⟨"f/a.jpg", true⟩, ⟨"f/b.jpg", true⟩, ⟨"f/c.jpg", true⟩]

/-- The three images plus a text file and a subdirectory. -/
def mixedEntries : List DirEntry :=
  threeImages ++ [⟨"f/notes.txt", true⟩, ⟨"f/sub", false⟩]

/-- A CSV file covering a.jpg and b.jpg with full non-empty rows. -/
def csvTwoRows : CsvFile :=
  CsvFile.rows
    [⟨some "a.jpg", some "TA", some "DA", some "LA", some "BA"⟩,
     ⟨some "b.jpg", some "TB", some "DB", some "LB", some "BB"⟩] false

/-- The C1 scenario: 3 discovered images, CSV metadata covering 2 of them,
stdin starting with the default title answer "T", login detected at the
first poll, all pins succeed. -/
def c1World : World :=
  ⟨none, some threeImages, csvTwoRows, ["T", "D", "L", "y"],
   fun _ => homeUrl, true, fun _ => PinOutcome.good⟩

/-- The C4 scenario: as `c1World`, but a `KeyboardInterrupt` arrives during
pin 2 of 3. -/
def c4World : World :=
  ⟨none, some threeImages, csvTwoRows, ["T", "D", "L", "y"],
   fun _ => homeUrl, true,
   fun i => if i = 2 then PinOutcome.interrupt else PinOutcome.good⟩

/-- The C8 scenario: no CSV (so the three default prompts consume stdin),
`--board B`, the browser never leaves the login page, and the manual
confirmation answer is "n". -/
def c8Args : Args := ⟨false, none, some "B", none⟩

/-- See `c8Args`. -/
def c8World : World :=
  ⟨none, some threeImages, CsvFile.missing, ["t", "d", "l", "n"],
   fun _ => PINTEREST_LOGIN_URL, true, fun _ => PinOutcome.good⟩

/-- Two valid CSV rows with distinct basenames, for the C7 witness. -/
def c7rows : List CsvRow :=
  [⟨some "a.jpg", some "TA", some "DA", some "LA", some "BA"⟩,
   ⟨some "dir/b.jpg", some "TB", none, some "LB", none⟩]

/-- Pin outcomes for the C2 witness: pin 2 raises, the others succeed. -/
def c2o : Nat → PinOutcome :=
  fun j => if j = 2 then PinOutcome.bad else PinOutcome.good

/-- Metadata dict for the C10 witness: a row whose title and link are
empty. -/
def c10md : List (String × Meta) := [("a.jpg", ⟨"", "D", "", "B"⟩)]

/-- Site oracle for the C9 witness: upload succeeds, the title field
raises, and the saving indicator never disappears. -/
def c9site : PinSite :=
  ⟨Except.ok (), ⟨Except.error "no title field", Except.ok (), Except.ok ()⟩,
   true, fun _ => true⟩

/-! ## Helper lemmas -/

/-- If the saving indicator never disappears, the publish poll times out. -/
theorem publishPoll_stuck (savingAt : Nat → Bool) (timeout : Nat)
    (h : ∀ t, savingAt t = true) :
    ∀ fuel t, publishPoll savingAt timeout t fuel = false := by
  intro fuel
  induction fuel with
  | zero => intro t; rfl
  | succ n ih =>
    intro t
    simp only [publishPoll, h t]
    split <;> simp [ih]

/-- The loop never hit `interrupt` when its result is not interrupted, so
every image contributed to exactly one of the two counters. -/
theorem postLoop_counts_of_not_interrupted (o : Nat → PinOutcome)
    (md : List (String × Meta)) (dT dD dL dB : String) :
    ∀ (images : List String) (i : Nat),
      (postLoop o md dT dD dL dB images i).interrupted = false →
      (postLoop o md dT dD dL dB images i).succeeded
        + (postLoop o md dT dD dL dB images i).failed = images.length := by
  intro images
  induction images with
  | nil => intro i _; rfl
  | cons img rest ih =>
    intro i hni
    rcases ho : o i with _ | _ | _ <;>
      simp [postLoop, ho] at hni ⊢
    · have := ih (i + 1) hni
      omega
    · have := ih (i + 1) hni
      omega

/-! ## C2 -/

/-- C2: for every run of the posting loop in which no `KeyboardInterrupt`
occurs, every discovered image is attempted exactly once and in order;
an image whose posting sequence raises is recorded as not ok (counted
failed) and the loop still continues through all later images; and
succeeded + failed equals the number of discovered images. -/
theorem postLoop_attempts_all_images (o : Nat → PinOutcome)
    (md : List (String × Meta)) (dT dD dL dB : String)
    (images : List String) (i : Nat)
    (h : ∀ j, o j ≠ PinOutcome.interrupt) :
    ((postLoop o md dT dD dL dB images i).pins.length = images.length)
    ∧ ((postLoop o md dT dD dL dB images i).pins.map PinAttempt.filename
        = images.map basename)
    ∧ ((postLoop o md dT dD dL dB images i).pins.map PinAttempt.index
        = List.range' i images.length)
    ∧ ((postLoop o md dT dD dL dB images i).pins.map PinAttempt.ok
        = (List.range' i images.length).map (fun j => (o j).isGood))
    ∧ ((postLoop o md dT dD dL dB images i).succeeded
        + (postLoop o md dT dD dL dB images i).failed = images.length)
    ∧ ((postLoop o md dT dD dL dB images i).interrupted = false) := by
  induction images generalizing i with
  | nil => simp [postLoop]
  | cons img rest ih =>
    obtain ⟨h1, h2, h3, h4, h5, h6⟩ := ih (i + 1)
    rcases ho : o i with _ | _ | _
    · exact ⟨by simp [postLoop, ho, h1], by simp [postLoop, ho, h2],
        by simp [postLoop, ho, h3, List.range'_succ],
        by simp [postLoop, ho, h4, List.range'_succ, PinOutcome.isGood],
        by simp [postLoop, ho]; omega,
        by simp [postLoop, ho, h6]⟩
    · exact ⟨by simp [postLoop, ho, h1], by simp [postLoop, ho, h2],
        by simp [postLoop, ho, h3, List.range'_succ],
        by simp [postLoop, ho, h4, List.range'_succ, PinOutcome.isGood],
        by simp [postLoop, ho]; omega,
        by simp [postLoop, ho, h6]⟩
    · exact absurd ho (h i)

/-- Witness for C2: three images with pin 2 raising give succeeded = 2,
failed = 1, total = 3, with all three filenames attempted in order. -/
theorem postLoop_attempts_all_images_witness :
    (∀ j, c2o j ≠ PinOutcome.interrupt)
    ∧ ((postLoop c2o [] "T" "D" "L" "B" ["f/a.jpg", "f/b.jpg", "f/c.jpg"] 1).succeeded
        + (postLoop c2o [] "T" "D" "L" "B" ["f/a.jpg", "f/b.jpg", "f/c.jpg"] 1).failed = 3)
    ∧ ((postLoop c2o [] "T" "D" "L" "B" ["f/a.jpg", "f/b.jpg", "f/c.jpg"] 1).pins.map
        PinAttempt.filename = ["a.jpg", "b.jpg", "c.jpg"]) := by
  have h : ∀ j, c2o j ≠ PinOutcome.interrupt := by
    intro j
    by_cases hj : j = 2 <;> simp [c2o, hj]
  have hmain := postLoop_attempts_all_images c2o [] "T" "D" "L" "B"
    ["f/a.jpg", "f/b.jpg", "f/c.jpg"] 1 h
  exact ⟨h, hmain.2.2.2.2.1, by decide⟩

/-! ## C5 -/

/-- C5 (code bug): `load_config` is meant never to raise — a missing file
or a caught parse/read failure yields the full defaults, and a JSON object
keeps its provided keys over the defaults — but a config file whose
contents parse to a JSON value that is not an object (here the number 5)
makes `defaults.update(user_config)` raise `TypeError`, which the
`except (ValueError, IOError)` clause does not catch, so `load_config`
raises after all. -/
theorem load_config_spec_and_typeerror :
    load_config (some (Except.ok (Json.num 5))) = Except.error "TypeError"
    ∧ load_config none = Except.ok ⟨configDefaults, false⟩
    ∧ load_config (some (Except.error ())) = Except.ok ⟨configDefaults, true⟩
    ∧ load_config (some (Except.ok (Json.obj [("board_name", JVal.s "B")])))
        = Except.ok ⟨[("board_name", JVal.s "B"),
                      ("login_wait_seconds", JVal.n 60),
                      ("delay_between_pins", JVal.n 2),
                      ("images_folder", JVal.s DEFAULT_IMAGES_FOLDER),
                      ("headless", JVal.b false)], false⟩ :=
  ⟨rfl, rfl, rfl, rfl⟩

/-! ## C9 -/

/-- C9: within one pin, each of the three field fills runs regardless of
the others failing — a failing field only contributes a warning event, the
neighbouring events are computed from their own actions alone — and the
pin's posting sequence returns normally past the upload even when every
field fails or the saving indicator never disappears (publish timeout). -/
theorem pin_field_publish_isolation (site : PinSite) (t d l b : String)
    (hup : site.uploadAct = Except.ok ()) :
    (∃ post, post_single_pin site t d l b = Except.ok post)
    ∧ (∀ e, site.fields.titleAct = Except.error e →
        fill_pin_details site.fields t d l =
          [FieldEv.warned "title" e, tryFill "description" d site.fields.descAct,
           tryFill "link" l site.fields.linkAct])
    ∧ (∀ e, site.fields.descAct = Except.error e →
        fill_pin_details site.fields t d l =
          [tryFill "title" t site.fields.titleAct, FieldEv.warned "description" e,
           tryFill "link" l site.fields.linkAct])
    ∧ (∀ e, site.fields.linkAct = Except.error e →
        fill_pin_details site.fields t d l =
          [tryFill "title" t site.fields.titleAct,
           tryFill "description" d site.fields.descAct, FieldEv.warned "link" e])
    ∧ ((∀ k, site.savingAt k = true) →
        post_single_pin site t d l b =
          Except.ok ⟨fill_pin_details site.fields t d l, (b ≠ "" : Bool), false⟩) := by
  refine ⟨⟨⟨fill_pin_details site.fields t d l, (b ≠ "" : Bool),
    wait_for_publish site.savingAt 60⟩, by simp [post_single_pin, hup]⟩, ?_, ?_, ?_, ?_⟩
  · intro e he
    simp [fill_pin_details, tryFill, he]
  · intro e he
    simp [fill_pin_details, tryFill, he]
  · intro e he
    simp [fill_pin_details, tryFill, he]
  · intro hsat
    have hto : wait_for_publish site.savingAt 60 = false :=
      publishPoll_stuck site.savingAt 60 hsat 61 0
    simp [post_single_pin, hup, hto]

/-- Witness for C9: at a site where the title field raises and the saving
indicator never disappears, the pin still completes normally. -/
theorem pin_field_publish_isolation_witness :
    (c9site.uploadAct = Except.ok ())
    ∧ (∃ post, post_single_pin c9site "t" "d" "l" "b" = Except.ok post)
    ∧ fill_pin_details c9site.fields "t" "d" "l" =
        [FieldEv.warned "title" "no title field", FieldEv.filled "description" "d",
         FieldEv.filled "link" "l"] := by
  have h := pin_field_publish_isolation c9site "t" "d" "l" "b" rfl
  refine ⟨rfl, h.1, ?_⟩
  have := h.2.1 "no title field" rfl
  simpa [tryFill, c9site] using this

/-! ## C10 -/

/-- C10: when an image has a CSV row, each of the four posted values is the
CSV value exactly when that value is non-empty, and the run-level default
when the CSV value is empty — an empty CSV field can never override a
default — and every pin the loop attempts carries exactly the values
resolved this way. -/
theorem csv_empty_field_uses_default (md : List (String × Meta)) (fn : String)
    (m : Meta) (hm : alGet md fn = some m) (dT dD dL dB : String) :
    ((m.title = "" → (effMeta md fn dT dD dL dB).title = dT)
      ∧ (m.title ≠ "" → (effMeta md fn dT dD dL dB).title = m.title))
    ∧ ((m.description = "" → (effMeta md fn dT dD dL dB).description = dD)
      ∧ (m.description ≠ "" → (effMeta md fn dT dD dL dB).description = m.description))
    ∧ ((m.link = "" → (effMeta md fn dT dD dL dB).link = dL)
      ∧ (m.link ≠ "" → (effMeta md fn dT dD dL dB).link = m.link))
    ∧ ((m.board = "" → (effMeta md fn dT dD dL dB).board = dB)
      ∧ (m.board ≠ "" → (effMeta md fn dT dD dL dB).board = m.board))
    ∧ (∀ (o : Nat → PinOutcome) (images : List String) (i : Nat),
        ∀ p ∈ (postLoop o md dT dD dL dB images i).pins,
          p.title = (effMeta md p.filename dT dD dL dB).title
          ∧ p.description = (effMeta md p.filename dT dD dL dB).description
          ∧ p.link = (effMeta md p.filename dT dD dL dB).link
          ∧ p.board = (effMeta md p.filename dT dD dL dB).board) := by
  refine ⟨⟨?_, ?_⟩, ⟨?_, ?_⟩, ⟨?_, ?_⟩, ⟨?_, ?_⟩, ?_⟩
  · intro h; simp [effMeta, hm, orStr, h]
  · intro h; simp [effMeta, hm, orStr, h]
  · intro h; simp [effMeta, hm, orStr, h]
  · intro h; simp [effMeta, hm, orStr, h]
  · intro h; simp [effMeta, hm, orStr, h]
  · intro h; simp [effMeta, hm, orStr, h]
  · intro h; simp [effMeta, hm, orStr, h]
  · intro h; simp [effMeta, hm, orStr, h]
  · intro o images
    induction images with
    | nil => intro i p hp; simp [postLoop] at hp
    | cons img rest ih =>
      intro i p hp
      rcases ho : o i with _ | _ | _ <;>
        simp only [postLoop, ho, List.mem_cons, List.not_mem_nil] at hp
      · rcases hp with hp | hp
        · subst hp; exact ⟨rfl, rfl, rfl, rfl⟩
        · exact ih (i + 1) p hp
      · rcases hp with hp | hp
        · subst hp; exact ⟨rfl, rfl, rfl, rfl⟩
        · exact ih (i + 1) p hp

/-- Witness for C10: a row with empty title and link takes the run defaults
for exactly those two fields. -/
theorem csv_empty_field_uses_default_witness :
    alGet c10md "a.jpg" = some ⟨"", "D", "", "B"⟩
    ∧ (effMeta c10md "a.jpg" "T0" "D0" "L0" "B0").title = "T0"
    ∧ (effMeta c10md "a.jpg" "T0" "D0" "L0" "B0").description = "D"
    ∧ (effMeta c10md "a.jpg" "T0" "D0" "L0" "B0").link = "L0"
    ∧ (effMeta c10md "a.jpg" "T0" "D0" "L0" "B0").board = "B" := by
  have h := csv_empty_field_uses_default c10md "a.jpg" ⟨"", "D", "", "B"⟩ (by decide)
    "T0" "D0" "L0" "B0"
  exact ⟨by decide, h.1.1 rfl, h.2.1.2 (by decide), h.2.2.1.1 rfl, h.2.2.2.1.2 (by decide)⟩

/-! ## Branch characterizations of the main flow -/

/-- Sorting a non-empty list gives a non-empty list. -/
theorem insertionSort_isEmpty_false (l : List String) (h : l ≠ []) :
    (List.insertionSort (fun a b => strLe a b = true) l).isEmpty = false := by
  rcases he : (List.insertionSort (fun a b => strLe a b = true) l).isEmpty with _ | _
  · rfl
  · have hlen := (List.perm_insertionSort (fun a b => strLe a b = true) l).length_eq
    rw [List.isEmpty_iff.mp he] at hlen
    exact absurd hlen.symm (by simpa [List.length_eq_zero] using h)

/-- `discover_images` on an existing folder either fails on an empty
filter result or returns the sorted filtered paths. -/
theorem discover_some_cases (entries : List DirEntry) :
    (entries.filter isImageFile = [] ∧ discover_images (some entries) = Except.error 1)
    ∨ (entries.filter isImageFile ≠ [] ∧ discover_images (some entries)
        = Except.ok (List.insertionSort (fun a b => strLe a b = true)
            ((entries.filter isImageFile).map DirEntry.path))) := by
  by_cases hf : entries.filter isImageFile = []
  · left
    refine ⟨hf, ?_⟩
    simp [discover_images, hf]
  · right
    refine ⟨hf, ?_⟩
    have hne : (entries.filter isImageFile).map DirEntry.path ≠ [] := by
      intro h0
      exact hf (List.map_eq_nil_iff.mp h0)
    simp [discover_images, insertionSort_isEmpty_false _ hne]

/-- The loop stage always exits 0, always releases the browser, and prints
the summary exactly when the loop was not interrupted. -/
theorem mainLoop_facts (w : World) (md : List (String × Meta)) (mp bp : Bool)
    (dT dD dL bn : String) (images : List String) :
    (mainLoop w md mp bp dT dD dL bn images).exitCode = 0
    ∧ (mainLoop w md mp bp dT dD dL bn images).crash = false
    ∧ (mainLoop w md mp bp dT dD dL bn images).driverQuit = true
    ∧ (mainLoop w md mp bp dT dD dL bn images).totalImages = images.length
    ∧ ((mainLoop w md mp bp dT dD dL bn images).reason = RunReason.completed
        ∨ (mainLoop w md mp bp dT dD dL bn images).reason = RunReason.interruptedUser)
    ∧ ((mainLoop w md mp bp dT dD dL bn images).reason = RunReason.completed
        ↔ (postLoop w.pinOutcome md dT dD dL bn images 1).interrupted = false)
    ∧ (mainLoop w md mp bp dT dD dL bn images).succeeded
        = (postLoop w.pinOutcome md dT dD dL bn images 1).succeeded
    ∧ (mainLoop w md mp bp dT dD dL bn images).failed
        = (postLoop w.pinOutcome md dT dD dL bn images 1).failed
    ∧ (mainLoop w md mp bp dT dD dL bn images).summaryShown
        = (if (postLoop w.pinOutcome md dT dD dL bn images 1).interrupted then none
           else some ((postLoop w.pinOutcome md dT dD dL bn images 1).succeeded,
             (postLoop w.pinOutcome md dT dD dL bn images 1).failed, images.length)) := by
  rcases hint : (postLoop w.pinOutcome md dT dD dL bn images 1).interrupted with _ | _ <;>
    simp [mainLoop, hint]

/-- The four possible outcomes of `mainWithImages`. -/
theorem mainWithImages_cases (a : Args) (w : World) (config : List (String × JVal))
    (b0 : JVal) (images : List String) :
    (w.driverOk = false ∧ mainWithImages a w config b0 images
        = earlyExit 1 RunReason.driverFailed false (mpOf a w) (bpOf b0) false false)
    ∨ (w.driverOk = true
        ∧ loginWaitPolls (loginWaitVal config) = Except.error ()
        ∧ mainWithImages a w config b0 images
          = ⟨1, RunReason.loginTypeCrash, true, mpOf a w, bpOf b0, dTitleOf a w,
             dDescOf a w, dLinkOf a w, boardNameOf a w b0, true, true, images.length,
             [], 0, 0, none⟩)
    ∨ (∃ timeout, w.driverOk = true
        ∧ loginWaitPolls (loginWaitVal config) = Except.ok timeout
        ∧ (wait_for_login w.loginUrls timeout (stdin2Of a w b0)).1 = false
        ∧ mainWithImages a w config b0 images
          = ⟨1, RunReason.loginFailed, false, mpOf a w, bpOf b0, dTitleOf a w, dDescOf a w,
             dLinkOf a w, boardNameOf a w b0, true, true, images.length, [], 0, 0, none⟩)
    ∨ (∃ timeout, w.driverOk = true
        ∧ loginWaitPolls (loginWaitVal config) = Except.ok timeout
        ∧ (wait_for_login w.loginUrls timeout (stdin2Of a w b0)).1 = true
        ∧ mainWithImages a w config b0 images
          = mainLoop w (mdOf a w) (mpOf a w) (bpOf b0) (dTitleOf a w) (dDescOf a w)
              (dLinkOf a w) (boardNameOf a w b0) images) := by
  rcases hdok : w.driverOk with _ | _
  · exact Or.inl ⟨rfl, by simp [mainWithImages, hdok]⟩
  · rcases hlw : loginWaitPolls (loginWaitVal config) with u | t
    · exact Or.inr (Or.inl ⟨rfl, rfl, by simp [mainWithImages, hdok, hlw]⟩)
    · rcases hlok : (wait_for_login w.loginUrls t (stdin2Of a w b0)).1 with _ | _
      · exact Or.inr (Or.inr (Or.inl
          ⟨t, rfl, rfl, hlok, by simp [mainWithImages, hdok, hlw, hlok]⟩))
      · exact Or.inr (Or.inr (Or.inr
          ⟨t, rfl, rfl, hlok, by simp [mainWithImages, hdok, hlw, hlok]⟩))

/-- The five possible outcomes of `mainRun`. -/
theorem mainRun_cases (a : Args) (w : World) :
    (configCrashes w.configFile = true
        ∧ mainRun a w = earlyExit 1 RunReason.configCrash true false false false false)
    ∨ (configCrashes w.configFile = false
        ∧ isStrVal (imagesVal a (settingsOf w.configFile)) = false
        ∧ mainRun a w = earlyExit 1 RunReason.pathTypeCrash true false false false false)
    ∨ (configCrashes w.configFile = false
        ∧ isStrVal (imagesVal a (settingsOf w.configFile)) = true ∧ w.folder = none
        ∧ mainRun a w = earlyExit 1 RunReason.folderMissing false false false false false)
    ∨ (∃ entries, configCrashes w.configFile = false
        ∧ isStrVal (imagesVal a (settingsOf w.configFile)) = true ∧ w.folder = some entries
        ∧ entries.filter isImageFile = []
        ∧ mainRun a w = earlyExit 1 RunReason.noImages false false false false false)
    ∨ (∃ cfg entries images, configCrashes w.configFile = false
        ∧ load_config w.configFile = Except.ok cfg
        ∧ cfg.settings = settingsOf w.configFile
        ∧ isStrVal (imagesVal a cfg.settings) = true
        ∧ w.folder = some entries ∧ entries.filter isImageFile ≠ []
        ∧ images = List.insertionSort (fun a b => strLe a b = true)
            ((entries.filter isImageFile).map DirEntry.path)
        ∧ mainRun a w = mainWithImages a w cfg.settings (b0ValOf a cfg.settings) images) := by
  have hok : ∀ cfg2, load_config w.configFile = Except.ok cfg2 →
      configCrashes w.configFile = false := by
    intro cfg2 hc2
    rcases hf : w.configFile with _ | f
    · simp [configCrashes, hf]
    · rcases f with e | j
      · simp [configCrashes, hf]
      · rcases j with fs | n
        · simp [configCrashes, hf]
        · rw [hf] at hc2
          simp [load_config] at hc2
  rcases hc : load_config w.configFile with e | cfg
  · left
    have hcr : configCrashes w.configFile = true := by
      rcases hf : w.configFile with _ | f
      · rw [hf] at hc; simp [load_config] at hc
      · rcases f with e2 | j
        · rw [hf] at hc; simp [load_config] at hc
        · rcases j with fs | n
          · rw [hf] at hc; simp [load_config] at hc
          · simp [configCrashes, hf]
    exact ⟨hcr, by simp [mainRun, hc]⟩
  · have hset : settingsOf w.configFile = cfg.settings := by
      simp [settingsOf, hc]
    rcases hiv : imagesVal a cfg.settings with v | v | v
    · rcases hfold : w.folder with _ | entries
      · right; right; left
        exact ⟨hok cfg hc, by rw [hset, hiv]; rfl, rfl,
          by simp [mainRun, hc, hiv, hfold, discover_images]⟩
      · rcases discover_some_cases entries with ⟨hf, hd⟩ | ⟨hf, hd⟩
        · right; right; right; left
          refine ⟨entries, hok cfg hc, by rw [hset, hiv]; rfl, rfl, hf, ?_⟩
          simp [mainRun, hc, hiv, hfold, hd]
        · right; right; right; right
          refine ⟨cfg, entries, _, hok cfg hc, rfl, hset.symm, by rw [hiv]; rfl, rfl, hf,
            rfl, ?_⟩
          simp [mainRun, hc, hiv, hfold, hd]
    · right; left
      exact ⟨hok cfg hc, by rw [hset, hiv]; rfl, by simp [mainRun, hc, hiv]⟩
    · right; left
      exact ⟨hok cfg hc, by rw [hset, hiv]; rfl, by simp [mainRun, hc, hiv]⟩

/-! ## C6 -/

/-- The lexicographic comparison is total. -/
theorem leChars_total (as : List Char) : ∀ bs, (leChars as bs || leChars bs as) = true := by
  induction as with
  | nil => intro bs; simp [leChars]
  | cons a as ih =>
    intro bs
    cases bs with
    | nil => simp [leChars]
    | cons b bs =>
      simp only [leChars]
      rcases lt_trichotomy a b with h | h | h
      · simp [h]
      · subst h
        simp [lt_irrefl, ih bs]
      · simp [h, lt_asymm h, ne_of_gt h]

/-- The lexicographic comparison is transitive. -/
theorem leChars_trans (as : List Char) :
    ∀ bs cs, leChars as bs = true → leChars bs cs = true → leChars as cs = true := by
  induction as with
  | nil => intro bs cs _ _; rfl
  | cons a as ih =>
    intro bs cs h1 h2
    cases bs with
    | nil => simp [leChars] at h1
    | cons b bs =>
      cases cs with
      | nil => simp [leChars] at h2
      | cons c cs =>
        simp only [leChars] at h1 h2 ⊢
        rcases lt_trichotomy a b with hab | hab | hab
        · rcases lt_trichotomy b c with hbc | hbc | hbc
          · simp [lt_trans hab hbc]
          · subst hbc; simp [hab]
          · rw [if_neg (lt_asymm hbc), if_neg (ne_of_gt hbc)] at h2
            simp at h2
        · subst hab
          rw [if_neg (lt_irrefl a), if_pos rfl] at h1
          rcases lt_trichotomy a c with hac | hac | hac
          · simp [hac]
          · subst hac
            rw [if_neg (lt_irrefl a), if_pos rfl] at h2 ⊢
            exact ih bs cs h1 h2
          · rw [if_neg (lt_asymm hac), if_neg (ne_of_gt hac)] at h2
            simp at h2
        · rw [if_neg (lt_asymm hab), if_neg (ne_of_gt hab)] at h1
          simp at h1

/-- `strLe` is total. -/
theorem strLe_total (a b : String) : (strLe a b || strLe b a) = true :=
  leChars_total a.toList b.toList

/-- `strLe` is transitive. -/
theorem strLe_trans (a b c : String) :
    strLe a b = true → strLe b c = true → strLe a c = true :=
  leChars_trans a.toList b.toList c.toList

/-- C6: for a folder holding a mix of allowed and disallowed entries (at
least one allowed), discovery succeeds and returns a list that is sorted
by Python string order, is a permutation of the paths of exactly the
plain files whose lower-cased extension is on the allow-list, and whose
members are characterised by that filter. -/
theorem discover_images_spec (entries : List DirEntry)
    (h : entries.filter isImageFile ≠ []) :
    ∃ l, discover_images (some entries) = Except.ok l
      ∧ List.Pairwise (fun a b => strLe a b = true) l
      ∧ l.Perm ((entries.filter isImageFile).map DirEntry.path)
      ∧ ∀ x, x ∈ l ↔ ∃ e ∈ entries, isImageFile e = true ∧ e.path = x := by
  have hperm : (List.insertionSort (fun a b => strLe a b = true)
        ((entries.filter isImageFile).map DirEntry.path)).Perm
      ((entries.filter isImageFile).map DirEntry.path) :=
    List.perm_insertionSort (fun a b => strLe a b = true)
      ((entries.filter isImageFile).map DirEntry.path)
  have hne : ((entries.filter isImageFile).map DirEntry.path) ≠ [] := by
    intro h0
    exact h (List.map_eq_nil_iff.mp h0)
  have hempty : (List.insertionSort (fun a b => strLe a b = true)
      ((entries.filter isImageFile).map DirEntry.path)).isEmpty = false :=
    insertionSort_isEmpty_false ((entries.filter isImageFile).map DirEntry.path) hne
  refine ⟨List.insertionSort (fun a b => strLe a b = true)
      ((entries.filter isImageFile).map DirEntry.path),
    by simp [discover_images, hempty], ?_, hperm, ?_⟩
  · haveI hT : IsTotal String (fun a b => strLe a b = true) :=
      ⟨fun a b => by simpa [Bool.or_eq_true] using strLe_total a b⟩
    haveI hR : IsTrans String (fun a b => strLe a b = true) :=
      ⟨fun a b c => strLe_trans a b c⟩
    exact List.sorted_insertionSort (fun a b => strLe a b = true)
      ((entries.filter isImageFile).map DirEntry.path)
  · intro x
    rw [hperm.mem_iff]
    simp only [List.mem_map, List.mem_filter]
    tauto

/-- Witness for C6: the three-image folder plus a text file and a
subdirectory yields exactly the three image paths, sorted. -/
theorem discover_images_spec_witness :
    (mixedEntries.filter isImageFile ≠ [])
    ∧ ∃ l, discover_images (some mixedEntries) = Except.ok l
      ∧ List.Pairwise (fun a b => strLe a b = true) l
      ∧ l.Perm ((mixedEntries.filter isImageFile).map DirEntry.path)
      ∧ ∀ x, x ∈ l ↔ ∃ e ∈ mixedEntries, isImageFile e = true ∧ e.path = x :=
  ⟨by decide, discover_images_spec mixedEntries (by decide)⟩

/-! ## C7 -/

/-- Setting an absent key appends it at the end. -/
theorem alSet_of_not_mem {α : Type} (acc : List (String × α)) (k : String) (v : α)
    (h : alGet acc k = none) : alSet acc k v = acc ++ [(k, v)] := by
  induction acc with
  | nil => rfl
  | cons kv rest ih =>
    obtain ⟨k0, v0⟩ := kv
    by_cases hk : k0 = k
    · simp [alGet, hk] at h
    · simp only [alGet, if_neg hk] at h
      simp [alSet, hk, ih h]

/-- A key absent from both parts is absent from the concatenation. -/
theorem alGet_append_none {α : Type} (acc : List (String × α)) (k k2 : String) (v : α)
    (h : alGet acc k2 = none) (hne : k2 ≠ k) :
    alGet (acc ++ [(k, v)]) k2 = none := by
  induction acc with
  | nil =>
    simp only [List.nil_append, alGet]
    rw [if_neg (Ne.symm hne)]
  | cons kv rest ih =>
    obtain ⟨k0, v0⟩ := kv
    by_cases hk : k0 = k2
    · simp [alGet, hk] at h
    · simp only [alGet, if_neg hk] at h
      simp [alGet, hk, ih h]

/-- Every entry of `alSet acc k v` is the new pair or one of `acc`. -/
theorem alSet_mem {α : Type} (acc : List (String × α)) (k : String) (v : α)
    (kv : String × α) (h : kv ∈ alSet acc k v) : kv = (k, v) ∨ kv ∈ acc := by
  induction acc with
  | nil =>
    simp only [alSet, List.mem_singleton] at h
    exact Or.inl h
  | cons kv0 rest ih =>
    obtain ⟨k0, v0⟩ := kv0
    by_cases hk : k0 = k
    · simp only [alSet, if_pos hk, List.mem_cons] at h
      rcases h with h | h
      · exact Or.inl h
      · exact Or.inr (by simp [h])
    · simp only [alSet, if_neg hk, List.mem_cons] at h
      rcases h with h | h
      · exact Or.inr (by simp [h])
      · rcases ih h with h2 | h2
        · exact Or.inl h2
        · exact Or.inr (by simp [h2])

/-- Folding valid rows with pairwise-distinct keys, none already present,
appends one entry per row in order. -/
theorem csvFold_append (rs : List CsvRow) :
    ∀ acc, (∀ r ∈ rs, rowKey r ≠ "") →
      (∀ r ∈ rs, alGet acc (rowKey r) = none) →
      (rs.map rowKey).Nodup →
      rs.foldl csvStep acc = acc ++ rs.map (fun r => (rowKey r, rowMeta r)) := by
  induction rs with
  | nil => intro acc _ _ _; simp
  | cons r rest ih =>
    intro acc hval hnew hnd
    have hk : rowKey r ≠ "" := hval r (by simp)
    have hstep : csvStep acc r = acc ++ [(rowKey r, rowMeta r)] := by
      simp [csvStep, hk, alSet_of_not_mem acc (rowKey r) (rowMeta r) (hnew r (by simp))]
    have hnd2 : (∀ x ∈ rest, ¬ rowKey x = rowKey r) ∧ (rest.map rowKey).Nodup := by
      simpa using hnd
    have hrec := ih (acc ++ [(rowKey r, rowMeta r)])
      (fun r2 h2 => hval r2 (by simp [h2]))
      (fun r2 h2 => alGet_append_none acc (rowKey r) (rowKey r2) (rowMeta r)
        (hnew r2 (by simp [h2]))
        (fun he => hnd2.1 r2 h2 he))
      hnd2.2
    simp only [List.foldl_cons, hstep, hrec, List.map_cons]
    simp

/-- Every entry the fold produces comes from a row with a non-empty key. -/
theorem csvFold_mem (rs : List CsvRow) :
    ∀ acc kv, kv ∈ rs.foldl csvStep acc →
      kv ∈ acc ∨ ∃ r ∈ rs, rowKey r ≠ "" ∧ rowKey r = kv.1 := by
  induction rs with
  | nil => intro acc kv h; exact Or.inl h
  | cons r rest ih =>
    intro acc kv h
    rcases ih (csvStep acc r) kv h with h1 | h1
    · by_cases hk : rowKey r = ""
      · rw [csvStep, if_neg (by simpa using hk)] at h1
        exact Or.inl h1
      · rw [csvStep, if_pos hk] at h1
        rcases alSet_mem acc (rowKey r) (rowMeta r) kv h1 with he | he
        · exact Or.inr ⟨r, by simp, hk, by rw [he]⟩
        · exact Or.inl he
    · rcases h1 with ⟨r2, hr2, hk2, he2⟩
      exact Or.inr ⟨r2, by simp [hr2], hk2, he2⟩

/-- C7 counterexample: a read error caught in the middle of the file does
not yield an empty mapping — the rows read before the error are kept. -/
theorem load_csv_read_error_not_empty :
    load_csv_metadata (some "pins.csv")
        (CsvFile.rows [⟨some "a.jpg", some "T", some "D", some "L", some "B"⟩] true)
      = [("a.jpg", ⟨"T", "D", "L", "B"⟩)]
    ∧ ([("a.jpg", (⟨"T", "D", "L", "B"⟩ : Meta))] : List (String × Meta)) ≠ [] := by
  exact ⟨by decide, by decide⟩

/-- C7 (amended): for a metadata file whose iteration yields N valid rows
with distinct basenames — whether it then ends normally or raises a caught
read error — loading yields exactly those N entries keyed by basename, in
order; a missing file, or no `--csv` argument, yields the empty mapping;
and in general every loaded entry stems from a row with a non-empty
filename (rows with an empty or missing filename are excluded). -/
theorem load_csv_metadata_spec (p : String) (hp : p ≠ "") (rs : List CsvRow)
    (err : Bool) (hval : ∀ r ∈ rs, rowKey r ≠ "")
    (hnd : (rs.map rowKey).Nodup) :
    load_csv_metadata (some p) (CsvFile.rows rs err)
        = rs.map (fun r => (rowKey r, rowMeta r))
    ∧ (load_csv_metadata (some p) (CsvFile.rows rs err)).length = rs.length
    ∧ load_csv_metadata (some p) CsvFile.missing = []
    ∧ load_csv_metadata none (CsvFile.rows rs err) = []
    ∧ (∀ (rs2 : List CsvRow) (err2 : Bool),
        ∀ kv ∈ load_csv_metadata (some p) (CsvFile.rows rs2 err2),
          kv.1 ≠ "" ∧ ∃ r ∈ rs2, rowKey r = kv.1) := by
  have heq : load_csv_metadata (some p) (CsvFile.rows rs err) = rs.foldl csvStep [] := by
    simp [load_csv_metadata, hp]
  have hfold := csvFold_append rs [] hval (fun r _ => rfl) hnd
  refine ⟨by simp [heq, hfold], by simp [heq, hfold],
    by simp [load_csv_metadata, hp], rfl, ?_⟩
  intro rs2 err2 kv hkv
  rw [show load_csv_metadata (some p) (CsvFile.rows rs2 err2) = rs2.foldl csvStep []
    from by simp [load_csv_metadata, hp]] at hkv
  rcases csvFold_mem rs2 [] kv hkv with h | h
  · simp at h
  · rcases h with ⟨r, hr, hk, he⟩
    exact ⟨he ▸ hk, r, hr, he⟩

/-- Witness for C7: two valid rows give exactly two entries keyed by
basename. -/
theorem load_csv_metadata_spec_witness :
    (("pins.csv" : String) ≠ "")
    ∧ (∀ r ∈ c7rows, rowKey r ≠ "")
    ∧ (c7rows.map rowKey).Nodup
    ∧ load_csv_metadata (some "pins.csv") (CsvFile.rows c7rows false)
        = [("a.jpg", ⟨"TA", "DA", "LA", "BA"⟩), ("b.jpg", ⟨"TB", "", "LB", ""⟩)] := by
  refine ⟨by decide, by decide, by decide, ?_⟩
  have h := (load_csv_metadata_spec "pins.csv" (by decide) c7rows false
    (by decide) (by decide)).1
  rw [h]
  decide

/-! ## C3 -/

/-- C4 counterexample: a `KeyboardInterrupt` during pin 2 of 3 ends the
loop early, and the program prints no summary at all — the summary line is
inside the `try` block and the interrupt handler skips it — refuting the
claim that an interrupted loop still reports the counts. -/
theorem main_interrupt_skips_summary :
    (mainRun csvArgs c4World).reason = RunReason.interruptedUser
    ∧ (mainRun csvArgs c4World).summaryShown = none
    ∧ (mainRun csvArgs c4World).pins.length = 1
    ∧ (mainRun csvArgs c4World).driverQuit = true := by
  exact ⟨by decide, by decide, by decide, by decide⟩

/-- C4 (amended): when the posting loop runs to completion the program
prints the summary with succeeded/failed/total (and succeeded + failed =
total); when the loop is interrupted by the user, the summary is *not*
printed — only the interruption log and the guaranteed browser teardown
happen; the browser is released in both cases. -/
theorem main_summary_spec (a : Args) (w : World)
    (h : (mainRun a w).reason = RunReason.completed
      ∨ (mainRun a w).reason = RunReason.interruptedUser) :
    (mainRun a w).driverQuit = true
    ∧ ((mainRun a w).reason = RunReason.completed
        ∧ (mainRun a w).summaryShown
          = some ((mainRun a w).succeeded, (mainRun a w).failed, (mainRun a w).totalImages)
        ∧ (mainRun a w).succeeded + (mainRun a w).failed = (mainRun a w).totalImages
      ∨ (mainRun a w).reason = RunReason.interruptedUser
        ∧ (mainRun a w).summaryShown = none) := by
  rcases mainRun_cases a w with ⟨_, hm⟩ | ⟨_, _, hm⟩ | ⟨_, _, _, hm⟩
    | ⟨entries, _, _, _, _, hm⟩
    | ⟨cfg, entries, images, _, hc, hsetEq, hivs, hfold, hf, himg, hm⟩
  · rw [hm] at h
    simp [earlyExit] at h
  · rw [hm] at h
    simp [earlyExit] at h
  · rw [hm] at h
    simp [earlyExit] at h
  · rw [hm] at h
    simp [earlyExit] at h
  · rcases mainWithImages_cases a w cfg.settings (b0ValOf a cfg.settings) images with
      ⟨hdok, hw⟩ | ⟨hdok, hlw, hw⟩ | ⟨t, hdok, hlw, hlok, hw⟩ | ⟨t, hdok, hlw, hlok, hw⟩
    · rw [hm, hw] at h
      simp [earlyExit] at h
    · rw [hm, hw] at h
      simp at h
    · rw [hm, hw] at h
      simp at h
    · rw [hm, hw]
      rcases hint : (postLoop w.pinOutcome (mdOf a w) (dTitleOf a w) (dDescOf a w)
          (dLinkOf a w) (boardNameOf a w (b0ValOf a cfg.settings)) images 1).interrupted
        with _ | _
      · have hsum := postLoop_counts_of_not_interrupted w.pinOutcome (mdOf a w)
          (dTitleOf a w) (dDescOf a w) (dLinkOf a w)
          (boardNameOf a w (b0ValOf a cfg.settings)) images 1 hint
        simp [mainLoop, hint, hsum]
      · simp [mainLoop, hint]

/-- Witness for C4: the complete three-image run reports
succeeded = 3, failed = 0, total = 3. -/
theorem main_summary_spec_witness :
    ((mainRun csvArgs c1World).reason = RunReason.completed
      ∨ (mainRun csvArgs c1World).reason = RunReason.interruptedUser)
    ∧ (mainRun csvArgs c1World).driverQuit = true
    ∧ (mainRun csvArgs c1World).summaryShown = some (3, 0, 3) := by
  have hre : (mainRun csvArgs c1World).reason = RunReason.completed := by decide
  have hm := main_summary_spec csvArgs c1World (Or.inl hre)
  exact ⟨Or.inl hre, hm.1, by decide⟩

/-! ## C8 -/

/-- If every polled location still matches the login path, the poll loop
finds nothing. -/
theorem loginDetect_none (urls : Nat → String) :
    ∀ (fuel start : Nat),
      (∀ k, start ≤ k → k < start + fuel → strContainsSub (urls k) "/login" = true) →
      loginDetect urls start fuel = none := by
  intro fuel
  induction fuel with
  | zero => intro start _; rfl
  | succ n ih =>
    intro start h
    have h0 : strContainsSub (urls start) "/login" = true := h start le_rfl (by omega)
    simp only [loginDetect, h0]
    simp only [Bool.true_eq_false, if_false]
    exact ih (start + 1) (fun k hk1 hk2 => h k (by omega) (by omega))

/-- The poll loop returns the first poll at which the location no longer
matches the login path. -/
theorem loginDetect_first (urls : Nat → String) :
    ∀ (fuel start k0 : Nat), start ≤ k0 → k0 < start + fuel →
      strContainsSub (urls k0) "/login" = false →
      (∀ j, start ≤ j → j < k0 → strContainsSub (urls j) "/login" = true) →
      loginDetect urls start fuel = some k0 := by
  intro fuel
  induction fuel with
  | zero =>
    intro start k0 h1 h2 _ _
    exact absurd (lt_of_le_of_lt h1 h2) (by omega)
  | succ n ih =>
    intro start k0 h1 h2 hk0 hbefore
    by_cases hs : start = k0
    · subst hs
      simp [loginDetect, hk0]
    · have hlt : start < k0 := lt_of_le_of_ne h1 hs
      have hstart : strContainsSub (urls start) "/login" = true := hbefore start le_rfl hlt
      simp only [loginDetect, hstart]
      simp only [Bool.true_eq_false, if_false]
      exact ih (start + 1) k0 (by omega) (by omega) hk0
        (fun j hj1 hj2 => hbefore j (by omega) hj2)

/-- C8 counterexample: with the gate stuck on the login page for the whole
timeout, the manual answer "Y" — an answer other than "y" — still yields
LoggedIn, because the code compares `input().strip().lower()`; this
refutes the claim that any answer other than "y" aborts the run. -/
theorem login_answer_capital_y_confirms :
    wait_for_login (fun _ => PINTEREST_LOGIN_URL) 3 ["Y"] = (true, [])
    ∧ ("Y" : String) ≠ "y" := by
  exact ⟨by decide, by decide⟩

/-- C8 (amended): the gate polls the location once per second up to the
timeout and returns LoggedIn at the first poll at which the location no
longer matches "/login", without touching stdin; if every poll within the
timeout still matches, it consumes one stdin line and confirms exactly
when that answer, stripped and lower-cased, equals "y" (so "y", "Y",
" y " confirm; anything else aborts); and a run whose login gate fails
exits 1 with zero pins attempted, no summary, and the browser session
still released. -/
theorem login_gate_spec (urls : Nat → String) (timeout : Nat) (stdin : List String)
    (a : Args) (w : World) :
    ((∀ k, k < timeout → strContainsSub (urls k) "/login" = true) →
      wait_for_login urls timeout stdin
        = ((strLower (strStrip (stdin.headD "")) = "y" : Bool), stdin.tail))
    ∧ (∀ k0, k0 < timeout → strContainsSub (urls k0) "/login" = false →
        (∀ j, j < k0 → strContainsSub (urls j) "/login" = true) →
        wait_for_login urls timeout stdin = (true, stdin))
    ∧ ((mainRun a w).reason = RunReason.loginFailed →
        (mainRun a w).exitCode = 1 ∧ (mainRun a w).pins = []
        ∧ (mainRun a w).succeeded = 0 ∧ (mainRun a w).failed = 0
        ∧ (mainRun a w).summaryShown = none ∧ (mainRun a w).driverQuit = true) := by
  refine ⟨?_, ?_, ?_⟩
  · intro h
    have hd := loginDetect_none urls timeout 0 (fun k _ hk => h k (by omega))
    simp [wait_for_login, hd]
  · intro k0 h1 h2 h3
    have hd := loginDetect_first urls timeout 0 k0 (Nat.zero_le k0) (by omega) h2
      (fun j _ hj => h3 j hj)
    simp [wait_for_login, hd]
  · intro h
    rcases mainRun_cases a w with ⟨_, hm⟩ | ⟨_, _, hm⟩ | ⟨_, _, _, hm⟩
      | ⟨entries, _, _, _, _, hm⟩
      | ⟨cfg, entries, images, _, hc, hsetEq, hivs, hfold, hf, himg, hm⟩
    · rw [hm] at h
      simp [earlyExit] at h
    · rw [hm] at h
      simp [earlyExit] at h
    · rw [hm] at h
      simp [earlyExit] at h
    · rw [hm] at h
      simp [earlyExit] at h
    · rcases mainWithImages_cases a w cfg.settings (b0ValOf a cfg.settings) images with
        ⟨hdok, hw⟩ | ⟨hdok, hlw, hw⟩ | ⟨t, hdok, hlw, hlok, hw⟩ | ⟨t, hdok, hlw, hlok, hw⟩
      · rw [hm, hw] at h
        simp [earlyExit] at h
      · rw [hm, hw] at h
        simp at h
      · rw [hm, hw]
        exact ⟨rfl, rfl, rfl, rfl, rfl, rfl⟩
      · rw [hm, hw] at h
        obtain ⟨f1, f2, f3, f4, f5, f6, f7, f8, f9⟩ := mainLoop_facts w (mdOf a w)
          (mpOf a w) (bpOf (b0ValOf a cfg.settings)) (dTitleOf a w) (dDescOf a w)
          (dLinkOf a w) (boardNameOf a w (b0ValOf a cfg.settings)) images
        rcases f5 with hre | hre <;> (rw [h] at hre; cases hre)

/-- Witness for C8: the gate stuck for a 2-second timeout with answer "n"
aborts; a gate that leaves the login page at poll 1 confirms; and the
manual-abort run exits 1 with zero pins and the browser released. -/
theorem login_gate_spec_witness :
    wait_for_login (fun _ => PINTEREST_LOGIN_URL) 2 ["n"] = (false, [])
    ∧ wait_for_login (fun k => if k = 0 then PINTEREST_LOGIN_URL else homeUrl) 60 [] = (true, [])
    ∧ (mainRun c8Args c8World).reason = RunReason.loginFailed
    ∧ (mainRun c8Args c8World).exitCode = 1 ∧ (mainRun c8Args c8World).pins = []
    ∧ (mainRun c8Args c8World).driverQuit = true := by
  have h1 := (login_gate_spec (fun _ => PINTEREST_LOGIN_URL) 2 ["n"] c8Args c8World).1
    (fun k _ => by decide)
  have h2 := (login_gate_spec (fun k => if k = 0 then PINTEREST_LOGIN_URL else homeUrl)
    60 [] c8Args c8World).2.1 1 (by omega) (by decide)
    (fun j hj => by
      have hj0 : j = 0 := by omega
      rw [hj0]
      decide)
  have hre : (mainRun c8Args c8World).reason = RunReason.loginFailed := by decide
  have h3 := (login_gate_spec (fun _ => PINTEREST_LOGIN_URL) 2 ["n"] c8Args c8World).2.2 hre
  refine ⟨?_, h2, hre, h3.1, h3.2.1, h3.2.2.2.2.2⟩
  rw [h1]
  decide

/-! ## C1 -/

/-- C1 counterexample: in the claimed scenario — 3 discovered images, CSV
metadata covering 2 of them, login detected within the timeout — the
default-metadata prompt is *not* shown (the code gates it on
`if not csv_metadata:`, and the CSV dict is non-empty), so the premise
that "T" was supplied interactively cannot hold: even with "T" first on
stdin, the image without metadata is posted with an empty title rather
than "T". -/
theorem main_no_default_prompt_when_csv_nonempty :
    (mainRun csvArgs c1World).metaPromptShown = false
    ∧ c1World.stdin.headD "" = "T"
    ∧ (mainRun csvArgs c1World).pins.map PinAttempt.title = ["TA", "TB", ""]
    ∧ ("" : String) ≠ "T" := by
  exact ⟨by decide, by decide, by decide, by decide⟩

/-- C1 (amended): 3 discovered images, CSV metadata covering exactly 2 of
them with non-empty fields, `--board B`, and a login gate satisfied at the
first poll: because the CSV metadata is non-empty, no interactive
default-metadata prompt occurs and the run-level defaults stay empty; the
run attempts exactly 3 pins in sorted order; the 2 covered images use
their rows' title/description/link/board; the uncovered one is posted
with empty title/description/link (and the run-level board); and the
final summary reports 3 posted, 0 failed, 3 total with
succeeded + failed = 3. -/
theorem main_scenario_three_images_csv_two :
    (mainRun csvArgs c1World).metaPromptShown = false
    ∧ (mainRun csvArgs c1World).boardPromptShown = false
    ∧ (mainRun csvArgs c1World).pins
      = [⟨1, "a.jpg", "TA", "DA", "LA", "BA", true⟩,
         ⟨2, "b.jpg", "TB", "DB", "LB", "BB", true⟩,
         ⟨3, "c.jpg", "", "", "", "B", true⟩]
    ∧ (mainRun csvArgs c1World).summaryShown = some (3, 0, 3)
    ∧ (mainRun csvArgs c1World).succeeded + (mainRun csvArgs c1World).failed = 3
    ∧ (mainRun csvArgs c1World).exitCode = 0 := by
  exact ⟨by decide, by decide, by decide, by decide, by decide, by decide⟩

end PinBot
